import Mathlib

/-!
Shallow embedding of `winpr/libwinpr/synch/timer.c` (WinPR waitable timers
and timer queues), together with theorems settling the specification claims.

Modelling conventions:
* `struct timespec` is a pair of mathematical integers; `tv_nsec` is a C
  `long`, `tv_sec` a `time_t`, both 64-bit, so plain `Int` is exact for all
  values reachable here.
* The C expression `ms * 1000000` in `timespec_add_ms` multiplies a `UINT32`
  by an `int`; by the usual arithmetic conversions it is computed in 32-bit
  unsigned arithmetic, hence the explicit `% 4294967296` below.
* Opaque pointers (callback functions, callback arguments) are abstract
  `Nat` identifiers wrapped in `Option` (`none` models a NULL pointer).
* OS resources and OS calls (timerfd, POSIX timers, pthread operations)
  are recorded in explicit traces; the OS calls themselves are modelled
  as succeeding.
* The singly-linked entry chain of a timer queue is modelled as a Lean
  list: the queue's `head` pointer is the head of the list and each node's
  `next` pointer is the tail behind it.  `InsertTimerQueueTimer` receives
  the list hanging off the inserted node's `next` pointer as an explicit
  extra argument `timerNext`, because the C routine reads that pointer when
  it appends at the tail (the fire path passes NULL, i.e. `[]`; the create
  path leaves it uninitialized).
-/

/-- Model of `struct timespec`: seconds and nanoseconds. -/
structure Timespec where
  tv_sec : Int
  tv_nsec : Int
deriving DecidableEq, Repr

/-- Embedding of `timespec_compare` (timer.c:344): negative / zero / positive ordering
result, by seconds first and nanosecond difference on a tie. -/
def timespec_compare (tspec1 tspec2 : Timespec) : Int :=
  if tspec1.tv_sec < tspec2.tv_sec then -1
  else if tspec2.tv_sec < tspec1.tv_sec then 1
  else tspec1.tv_nsec - tspec2.tv_nsec

/-- Embedding of `timespec_add_ms` (timer.c:329): `UINT64 ns = tspec->tv_nsec + (ms * 1000000)`,
where `ms * 1000000` is 32-bit unsigned arithmetic and therefore wraps
modulo `2^32`; the sum is then renormalized into seconds and nanoseconds.
The model assumes the input is normalized (`0 ≤ tv_nsec`), which every call
site of the C code maintains, so the `Int → Nat` cast is exact. -/
def timespec_add_ms (tspec : Timespec) (ms : Nat) : Timespec :=
  let ns : Nat := tspec.tv_nsec.toNat + (ms * 1000000) % 4294967296
  { tv_sec := tspec.tv_sec + ((ns / 1000000000 : Nat) : Int),
    tv_nsec := ((ns % 1000000000 : Nat) : Int) }

/-- Model of `WINPR_TIMER_QUEUE_TIMER`: one timer-queue entry.  The `next` pointer is
represented by list position in the chain, and the `timerQueue` back
pointer is dropped (it is written but never read in timer.c). -/
structure TQTimer where
  StartTime : Timespec
  ExpirationTime : Timespec
  Flags : Nat
  DueTime : Nat
  Period : Nat
  Callback : Nat
  Parameter : Nat
  FireCount : Nat
deriving DecidableEq, Repr

/-- Inner loop of `InsertTimerQueueTimer` (timer.c:371-384), starting at
`node` with the links behind it in `rest`.  The loop advances while
`node->next` is non-NULL, breaking as soon as the new timer's expiration
compares below the *current* node's; on break the code runs
`timer->next = node->next->next; node->next = timer;`, which places the new
timer after `node` and silently drops the old `node->next`.  When the loop
falls off the tail, `node->next = timer` appends the timer with whatever
chain its own `next` pointer already held (`timerNext`). -/
def insertLoop (node : TQTimer) (rest : List TQTimer) (timer : TQTimer)
    (timerNext : List TQTimer) : List TQTimer :=
  match rest with
  | [] => node :: timer :: timerNext
  | next :: rest2 =>
    if timespec_compare timer.ExpirationTime node.ExpirationTime < 0 then
      node :: timer :: rest2
    else
      node :: insertLoop next rest2 timer timerNext

/-- Embedding of `InsertTimerQueueTimer` (timer.c:361-385).  An empty chain becomes the
new timer itself (still followed by whatever its `next` pointer held). -/
def InsertTimerQueueTimer (chain : List TQTimer) (timer : TQTimer)
    (timerNext : List TQTimer) : List TQTimer :=
  match chain with
  | [] => timer :: timerNext
  | node :: rest => insertLoop node rest timer timerNext

/-- One recorded callback invocation `node->Callback(node->Parameter, TRUE)`:
the opaque parameter identifier and the boolean passed to the callback. -/
def FireEvent (node : TQTimer) : Nat × Bool := (node.Parameter, true)

/-- The `while (node)` loop of `FireExpiredTimerQueueTimers`
(timer.c:399-421), with explicit fuel: `none` means the loop performed
`fuel` iterations without terminating.  Inside the loop `node` is always
the queue head (it is only reassigned to `timerQueue->head` after a
periodic re-insert and never advanced otherwise).  A due node has its
callback invoked and `FireCount` incremented; a periodic node additionally
has its expiration advanced by `timespec_add_ms`, is detached
(`timerQueue->head = node->next; node->next = NULL`) and re-inserted with
`InsertTimerQueueTimer`.  A due one-shot node (`Period == 0`) is neither
removed nor advanced past.  The result pairs the final chain with the list
of callback invocations in order. -/
def fireLoop : Nat → Timespec → List TQTimer →
    Option (List TQTimer × List (Nat × Bool))
  | 0, _, _ => none
  | _ + 1, _, [] => some ([], [])
  | fuel + 1, now, node :: rest =>
    if 0 ≤ timespec_compare now node.ExpirationTime then
      if node.Period ≠ 0 then
        let node' : TQTimer :=
          { node with
            ExpirationTime := timespec_add_ms node.ExpirationTime node.Period,
            FireCount := node.FireCount + 1 }
        match fireLoop fuel now (InsertTimerQueueTimer rest node' []) with
        | none => none
        | some (chain, events) => some (chain, FireEvent node :: events)
      else
        let node' : TQTimer := { node with FireCount := node.FireCount + 1 }
        match fireLoop fuel now (node' :: rest) with
        | none => none
        | some (chain, events) => some (chain, FireEvent node :: events)
    else
      some (node :: rest, [])

/-- Embedding of `FireExpiredTimerQueueTimers` (timer.c:387-424): returns immediately on
an empty chain, otherwise snapshots the current time (here a parameter
`now`) and runs the firing loop. -/
def FireExpiredTimerQueueTimers (fuel : Nat) (now : Timespec)
    (chain : List TQTimer) : Option (List TQTimer × List (Nat × Bool)) :=
  match chain with
  | [] => some ([], [])
  | _ => fireLoop fuel now chain

/-- pthread operations on a timer queue's `cond_mutex` / `cond`. -/
inductive SyncOp
  | mutexLock
  | mutexUnlock
  | condTimedwait
  | condSignal
deriving DecidableEq, Repr

/-- Result of `CreateTimerQueueTimer`: return value, the queue's chain
afterwards, the handle stored through `phNewTimer`, and the pthread
synchronization operations the call performed. -/
structure CreateResult where
  ret : Bool
  chain : List TQTimer
  handle : Option TQTimer
  sync : List SyncOp
deriving DecidableEq, Repr

/-- Embedding of `CreateTimerQueueTimer` (timer.c:516-548): fails on a NULL queue
(`queueValid = false`), otherwise builds the entry with
`StartTime = ExpirationTime = now + DueTime` and `FireCount = 0`, and
inserts it into the chain with `InsertTimerQueueTimer`.  The entry's
`next` pointer is never initialized before the insert, so the list it
holds is the explicit parameter `uninitNext`.  The function performs no
pthread locking or signalling, hence the empty `sync` trace. -/
def CreateTimerQueueTimer (queueValid : Bool) (chain : List TQTimer)
    (now : Timespec) (callback parameter : Nat) (dueTime period flags : Nat)
    (uninitNext : List TQTimer) : CreateResult :=
  if !queueValid then ⟨false, chain, none, []⟩
  else
    let startTime := timespec_add_ms now dueTime
    let timer : TQTimer :=
      { StartTime := startTime, ExpirationTime := startTime,
        Flags := flags, DueTime := dueTime, Period := period,
        Callback := callback, Parameter := parameter, FireCount := 0 }
    ⟨true, InsertTimerQueueTimer chain timer uninitNext, some timer, []⟩

/-- Result of `DeleteTimerQueueTimer`: return value, queue chain afterwards,
and pthread synchronization operations performed. -/
structure DeleteResult where
  ret : Bool
  queue : Option (List TQTimer)
  sync : List SyncOp
deriving DecidableEq, Repr

/-- Embedding of `DeleteTimerQueueTimer` (timer.c:564-578): fails if either handle is
NULL; otherwise it `free`s the entry's memory and returns TRUE.  The
queue's chain is never accessed, so it is returned unchanged, and no
pthread operation is performed. -/
def DeleteTimerQueueTimer (queue : Option (List TQTimer))
    (timer : Option TQTimer) : DeleteResult :=
  match queue, timer with
  | some chain, some _ => ⟨true, some chain, []⟩
  | _, _ => ⟨false, queue, []⟩

/-- Result of `ChangeTimerQueueTimer`: return value, queue chain and the
named entry afterwards. -/
structure ChangeResult where
  ret : Bool
  queue : Option (List TQTimer)
  timer : Option TQTimer
deriving DecidableEq, Repr

/-- Embedding of `ChangeTimerQueueTimer` (timer.c:550-562): fails if either handle is
NULL; otherwise it casts both pointers and returns TRUE without reading or
writing any field, so queue and entry pass through unchanged. -/
def ChangeTimerQueueTimer (queue : Option (List TQTimer))
    (timer : Option TQTimer) (dueTime period : Nat) : ChangeResult :=
  match queue, timer with
  | some chain, some t => ⟨true, some chain, some t⟩
  | _, _ => ⟨false, queue, timer⟩

/-- One iteration of the worker loop body of `TimerQueueThread`
(timer.c:432-451): lock `cond_mutex`, compute the wake time (a 20 ms idle
poll when the chain is empty, otherwise the head's expiration),
`pthread_cond_timedwait`, fire expired timers against a fresh time
snapshot `fireNow`, unlock. -/
structure WorkerIterResult where
  timeout : Timespec
  fireResult : Option (List TQTimer × List (Nat × Bool))
  sync : List SyncOp
deriving DecidableEq, Repr

/-- Model of one `TimerQueueThread` loop iteration (timer.c:432-451). -/
def TimerQueueThreadIteration (fuel : Nat) (chain : List TQTimer)
    (now fireNow : Timespec) : WorkerIterResult :=
  let timeout :=
    match chain with
    | [] => timespec_add_ms now 20
    | node :: _ => node.ExpirationTime
  { timeout := timeout,
    fireResult := FireExpiredTimerQueueTimers fuel fireNow chain,
    sync := [SyncOp.mutexLock, SyncOp.condTimedwait, SyncOp.mutexUnlock] }

/-- Model of `struct itimerspec`: recurring interval and initial value. -/
structure ITimerspec where
  it_interval_sec : Int
  it_interval_nsec : Int
  it_value_sec : Int
  it_value_nsec : Int
deriving DecidableEq, Repr

/-- The all-zero `itimerspec` produced by `ZeroMemory`. -/
def ITimerspec.zero : ITimerspec := ⟨0, 0, 0, 0⟩

/-- OS calls made by the waitable-timer code; `timerfdSettime` /
`timerSettime` record the `itimerspec` they program. -/
inductive OsCall
  | timerfdCreate
  | fcntlNonblock
  | sigactionAlrm
  | timerCreateSig
  | timerfdSettime (v : ITimerspec)
  | timerSettime (v : ITimerspec)
deriving DecidableEq, Repr

/-- Model of `WINPR_TIMER`: a waitable timer.  `fd` is `some ()` once a timerfd has
been created (the C initial value -1 is `none`); `tid` is `some ()` once a
POSIX timer has been created. -/
structure WinprTimer where
  fd : Option Unit
  tid : Option Unit
  lPeriod : Int
  bManualReset : Bool
  pfnCompletionRoutine : Option Nat
  lpArgToCompletionRoutine : Option Nat
  bInit : Bool
  timeout : ITimerspec
deriving DecidableEq, Repr

/-- Embedding of `CreateWaitableTimerA` (timer.c:144-165): a fresh, inert timer. -/
def CreateWaitableTimerA (bManualReset : Bool) : WinprTimer :=
  { fd := none, tid := none, lPeriod := 0, bManualReset := bManualReset,
    pfnCompletionRoutine := none, lpArgToCompletionRoutine := none,
    bInit := false, timeout := ITimerspec.zero }

/-- Embedding of `InstallWaitableTimerSignalHandler` (timer.c:68-86): installs the
SIGALRM handler with `sigaction` the first time the process-wide flag `g`
is false, then sets the flag. -/
def InstallWaitableTimerSignalHandler (g : Bool) : Bool × List OsCall :=
  if !g then (true, [OsCall.sigactionAlrm]) else (g, [])

/-- Embedding of `InitializeWaitableTimer` (timer.c:90-138): branches on whether
`timer->lpArgToCompletionRoutine` (the completion *argument*, not the
completion routine) is NULL.  NULL argument: create a non-blocking
timerfd.  Non-NULL argument: install the signal handler and create a POSIX
timer delivering SIGALRM with a pointer back to this timer.  The OS calls
are modelled as succeeding; `bInit` is set afterwards.  `g` threads the
process-wide handler-installed flag. -/
def InitializeWaitableTimer (g : Bool) (timer : WinprTimer) :
    Bool × WinprTimer × List OsCall :=
  if timer.lpArgToCompletionRoutine = none then
    (g, { timer with fd := some (), bInit := true },
      [OsCall.timerfdCreate, OsCall.fcntlNonblock])
  else
    let gi := InstallWaitableTimerSignalHandler g
    (gi.1, { timer with tid := some (), bInit := true },
      gi.2 ++ [OsCall.timerCreateSig])

/-- Result of `SetWaitableTimer`: return value, handler-installed flag,
timer state afterwards, and OS calls performed in order. -/
structure SetTimerResult where
  ret : Bool
  g : Bool
  timer : WinprTimer
  calls : List OsCall
deriving DecidableEq, Repr

/-- Embedding of `SetWaitableTimer` (timer.c:186-284).  Guards (invalid handle, NULL
due-time pointer, negative period) fail without touching the timer.
Otherwise the call stores `lPeriod`, the completion routine and its
argument, runs `InitializeWaitableTimer` if `bInit` is still false, zeroes
`timer->timeout`, and converts the due time: negative `QuadPart` is a
relative delay in 100-nanosecond units (`seconds = due / 10^7`,
`nanoseconds = (due % 10^7) * 100` on the magnitude), zero means "use the
interval", and positive (absolute time) prints a message and returns FALSE
at that point.  A positive period programs `it_interval`, and the backing
resource is programmed with `timerfd_settime` when no completion routine
is stored, `timer_settime` otherwise (both modelled as succeeding). -/
def SetWaitableTimer (g : Bool) (validHandle : Bool) (timer : WinprTimer)
    (lpDueTime : Option Int) (lPeriod : Int)
    (pfn arg : Option Nat) : SetTimerResult :=
  if !validHandle then ⟨false, g, timer, []⟩
  else
    match lpDueTime with
    | none => ⟨false, g, timer, []⟩
    | some quadPart =>
      if lPeriod < 0 then ⟨false, g, timer, []⟩
      else
        let timer :=
          { timer with
            lPeriod := lPeriod, pfnCompletionRoutine := pfn,
            lpArgToCompletionRoutine := arg }
        let gi :=
          if !timer.bInit then InitializeWaitableTimer g timer
          else (g, timer, [])
        let g := gi.1
        let timer := gi.2.1
        let calls := gi.2.2
        let timer := { timer with timeout := ITimerspec.zero }
        if 0 < quadPart then ⟨false, g, timer, calls⟩
        else
          let due : Int := quadPart * (-1)
          let seconds : Int := if quadPart < 0 then due.tdiv 10000000 else 0
          let nanoseconds : Int :=
            if quadPart < 0 then (due.tmod 10000000) * 100 else 0
          let timer :=
            if 0 < lPeriod then
              { timer with
                timeout :=
                  { timer.timeout with
                    it_interval_sec := lPeriod.tdiv 1000,
                    it_interval_nsec := (lPeriod.tmod 1000) * 1000000 } }
            else timer
          let timer :=
            if quadPart ≠ 0 then
              { timer with
                timeout :=
                  { timer.timeout with
                    it_value_sec := seconds, it_value_nsec := nanoseconds } }
            else
              { timer with
                timeout :=
                  { timer.timeout with
                    it_value_sec := timer.timeout.it_interval_sec,
                    it_value_nsec := timer.timeout.it_interval_nsec } }
          if timer.pfnCompletionRoutine = none then
            ⟨true, g, timer, calls ++ [OsCall.timerfdSettime timer.timeout]⟩
          else
            ⟨true, g, timer, calls ++ [OsCall.timerSettime timer.timeout]⟩

/-- The in-place update a due periodic node receives inside the firing
loop (timer.c:404-408): callback counted and expiration advanced by the
period via `timespec_add_ms`. -/
def advanceTimer (node : TQTimer) : TQTimer :=
  { node with
    ExpirationTime := timespec_add_ms node.ExpirationTime node.Period,
    FireCount := node.FireCount + 1 }

/-- Iterates `advanceTimer` a total of `k` times. -/
def advanceTimerIter : TQTimer → Nat → TQTimer
  | e, 0 => e
  | e, k + 1 => advanceTimerIter (advanceTimer e) k

/-- Classifies the OS calls that program a backing resource's countdown
(`timerfd_settime` / `timer_settime`). -/
def isSettimeCall : OsCall → Bool
  | OsCall.timerfdCreate => false
  | OsCall.fcntlNonblock => false
  | OsCall.sigactionAlrm => false
  | OsCall.timerCreateSig => false
  | OsCall.timerfdSettime _ => true
  | OsCall.timerSettime _ => true

/-- Test fixture: a timer-queue entry whose deadline is `sec` seconds,
with the given opaque parameter and period. -/
def entryAt (sec : Int) (param period : Nat) : TQTimer :=
  { StartTime := ⟨sec, 0⟩, ExpirationTime := ⟨sec, 0⟩, Flags := 0,
    DueTime := 0, Period := period, Callback := 0, Parameter := param,
    FireCount := 0 }

/-- Test fixture: a fresh waitable timer whose stored period is 7. -/
def timerWithPeriod7 : WinprTimer :=
  { CreateWaitableTimerA false with lPeriod := 7 }

/-- Test fixture: a periodic entry due at time 0 with period 100 ms. -/
def periodicEntry : TQTimer := entryAt 0 7 100

/-- Test fixture: an observation time 250 ms after `periodicEntry`'s
deadline, so two and a half periods have elapsed. -/
def periodicNow : Timespec := ⟨0, 250000000⟩

/-- Helper: a due one-shot head node is never consumed by the firing loop:
the loop body re-fires it without advancing, so every fuel bound is
exhausted. -/
theorem fireLoop_oneshot_stuck (now : Timespec) (rest : List TQTimer) :
    ∀ (fuel : Nat) (node : TQTimer),
      0 ≤ timespec_compare now node.ExpirationTime → node.Period = 0 →
      fireLoop fuel now (node :: rest) = none := by
  intro fuel
  induction fuel with
  | zero => intro node _ _; rfl
  | succ n ih =>
    intro node hdue hp
    have hnp : ¬ node.Period ≠ 0 := by simp [hp]
    simp only [fireLoop, if_pos hdue, if_neg hnp]
    rw [ih { node with FireCount := node.FireCount + 1 } hdue hp]

/-- C1: registration via `InsertTimerQueueTimer` is claimed to splice the
new entry before the first entry with a greater-or-equal deadline without
detaching anything.  Evaluating the code at a chain with deadlines
10 s and 20 s and a new entry due at 5 s instead yields the chain
`[10 s, 5 s]`: the new entry lands *after* the later-deadline head and the
20 s entry is silently dropped from the chain. -/
theorem insertTimerQueueTimer_drops_queued_entry :
    InsertTimerQueueTimer [entryAt 10 10 0, entryAt 20 20 0]
        (entryAt 5 5 0) [] = [entryAt 10 10 0, entryAt 5 5 0] ∧
      entryAt 20 20 0 ∉
        InsertTimerQueueTimer [entryAt 10 10 0, entryAt 20 20 0]
          (entryAt 5 5 0) [] := by
  decide

/-- C2: a pass of `FireExpiredTimerQueueTimers` over a chain headed by a
due one-shot entry (period 0) is claimed to fire it once, remove it, and
terminate.  In the code the one-shot branch neither removes the node nor
advances past it, so the pass never terminates for any iteration bound:
the callback is re-invoked forever and the entry is never absent. -/
theorem fireExpiredTimerQueueTimers_oneshot_never_terminates :
    ∀ fuel : Nat,
      FireExpiredTimerQueueTimers fuel ⟨10, 0⟩ [entryAt 0 1 0] = none := by
  intro fuel
  show fireLoop fuel ⟨10, 0⟩ [entryAt 0 1 0] = none
  exact fireLoop_oneshot_stuck ⟨10, 0⟩ [] fuel (entryAt 0 1 0)
    (by decide) rfl

/-- C3: `DeleteTimerQueueTimer` with non-null handles is claimed to remove
the entry from the queue's chain.  Evaluating the code on a queue whose
chain holds exactly the entry being deleted: the call returns TRUE but the
chain still contains the entry — the code frees the entry's memory without
ever unlinking it, leaving a dangling node in the chain. -/
theorem deleteTimerQueueTimer_leaves_chain_untouched :
    DeleteTimerQueueTimer (some [entryAt 7 3 0]) (some (entryAt 7 3 0)) =
        ⟨true, some [entryAt 7 3 0], []⟩ ∧
      entryAt 7 3 0 ∈ [entryAt 7 3 0] := by
  decide

/-- C5 counterexample: the claim says a due periodic entry fires at most
once per pass even if multiple periods have elapsed.  With a 100 ms
period and an observation time 250 ms past the deadline, a single pass of
`FireExpiredTimerQueueTimers` invokes the callback three times. -/
theorem fireExpiredTimerQueueTimers_catchup_counterexample :
    (FireExpiredTimerQueueTimers 10 periodicNow [periodicEntry]).elim 0
        (fun r => r.2.length) = 3 ∧
      ¬(FireExpiredTimerQueueTimers 10 periodicNow [periodicEntry]).elim 0
        (fun r => r.2.length) ≤ 1 := by
  decide

/-- C6: the backing resource is claimed to be chosen by whether a
completion *callback* was supplied.  The code instead tests the completion
*argument*: arming a fresh timer with a callback but a NULL argument
creates the pollable countdown descriptor (timerfd) rather than a native
interval timer, installs no signal handler, and then — because the arm
dispatch *does* test the callback — issues `timer_settime` against the
POSIX timer that was never created. -/
theorem initializeWaitableTimer_selects_backing_by_argument :
    (SetWaitableTimer false true (CreateWaitableTimerA false)
        (some (-5000000)) 0 (some 1) none).calls =
      [OsCall.timerfdCreate, OsCall.fcntlNonblock,
        OsCall.timerSettime ⟨0, 0, 0, 500000000⟩] ∧
      (SetWaitableTimer false true (CreateWaitableTimerA false)
        (some (-5000000)) 0 (some 1) none).timer.tid = none ∧
      (SetWaitableTimer false true (CreateWaitableTimerA false)
        (some (-5000000)) 0 (some 1) none).timer.fd = some () := by
  decide

/-- C9: chain mutations are claimed to happen under the worker's mutex and
to be followed by a condition-variable signal.  In the code neither
`CreateTimerQueueTimer` nor `DeleteTimerQueueTimer` performs any pthread
operation at all (no lock, no signal), while the worker-loop iteration
does lock the `cond_mutex` around its wait and fire pass. -/
theorem timerQueueMutation_no_lock_no_signal :
    (∀ (qv : Bool) (chain : List TQTimer) (now : Timespec)
        (cb param due per fl : Nat) (un : List TQTimer),
        (CreateTimerQueueTimer qv chain now cb param due per fl un).sync
          = []) ∧
      (∀ (q : Option (List TQTimer)) (t : Option TQTimer),
        (DeleteTimerQueueTimer q t).sync = []) ∧
      (∀ (fuel : Nat) (chain : List TQTimer) (now fireNow : Timespec),
        SyncOp.mutexLock ∈
          (TimerQueueThreadIteration fuel chain now fireNow).sync) := by
  refine ⟨?_, ?_, ?_⟩
  · intro qv chain now cb param due per fl un
    cases qv <;> rfl
  · intro q t
    rcases q with _ | c <;> rcases t with _ | t <;> rfl
  · intro fuel chain now fireNow
    simp [TimerQueueThreadIteration]

/-- C4 counterexample: the claim says a failed absolute-due-time arm
leaves the stored period, completion routine, argument and backing
untouched.  Arming a never-initialized timer whose stored period is 7
with a positive due time: the call fails, but the stored period has
become 3, the completion routine and argument have been overwritten, and
the backing resource has been initialized. -/
theorem setWaitableTimer_absolute_mutates_state :
    (SetWaitableTimer false true timerWithPeriod7 (some 100) 3 (some 1)
        (some 2)).ret = false ∧
      (SetWaitableTimer false true timerWithPeriod7 (some 100) 3 (some 1)
        (some 2)).timer.lPeriod ≠ timerWithPeriod7.lPeriod ∧
      (SetWaitableTimer false true timerWithPeriod7 (some 100) 3 (some 1)
        (some 2)).timer.pfnCompletionRoutine ≠
        timerWithPeriod7.pfnCompletionRoutine ∧
      (SetWaitableTimer false true timerWithPeriod7 (some 100) 3 (some 1)
        (some 2)).timer.bInit ≠ timerWithPeriod7.bInit := by
  decide

/-- C4 (amended): a positive (absolute) due time makes `SetWaitableTimer`
return FALSE without programming any countdown (no settime call is
issued) — but only after it has overwritten the stored period, completion
routine and completion argument with the new arguments, zeroed the
in-memory `timeout`, and initialized the backing resource if it was not
yet initialized. -/
theorem setWaitableTimer_absolute_fails_after_mutation
    (g : Bool) (t : WinprTimer) (q p : Int) (pfn arg : Option Nat)
    (hq : 0 < q) (hp : 0 ≤ p) :
    (SetWaitableTimer g true t (some q) p pfn arg).ret = false ∧
      (SetWaitableTimer g true t (some q) p pfn arg).timer.lPeriod = p ∧
      (SetWaitableTimer g true t (some q) p pfn arg).timer.pfnCompletionRoutine
        = pfn ∧
      (SetWaitableTimer g true t (some q) p pfn
        arg).timer.lpArgToCompletionRoutine = arg ∧
      (SetWaitableTimer g true t (some q) p pfn arg).timer.bInit = true ∧
      (SetWaitableTimer g true t (some q) p pfn arg).timer.timeout =
        ITimerspec.zero ∧
      (SetWaitableTimer g true t (some q) p pfn arg).calls.filter
        isSettimeCall = [] := by
  have hp' : ¬ p < 0 := not_lt.mpr hp
  by_cases hb : t.bInit = true <;> by_cases ha : arg = none <;>
    by_cases hg : g = true <;>
    simp [SetWaitableTimer, InitializeWaitableTimer,
      InstallWaitableTimerSignalHandler, isSettimeCall, hp', hq, hb, ha, hg]

/-- Witness for C4 (amended) at a concrete input. -/
theorem setWaitableTimer_absolute_fails_after_mutation_witness :
    (SetWaitableTimer false true timerWithPeriod7 (some 100) 3 (some 1)
        (some 2)).ret = false ∧
      (SetWaitableTimer false true timerWithPeriod7 (some 100) 3 (some 1)
        (some 2)).timer.lPeriod = 3 ∧
      (SetWaitableTimer false true timerWithPeriod7 (some 100) 3 (some 1)
        (some 2)).timer.pfnCompletionRoutine = some 1 ∧
      (SetWaitableTimer false true timerWithPeriod7 (some 100) 3 (some 1)
        (some 2)).timer.lpArgToCompletionRoutine = some 2 ∧
      (SetWaitableTimer false true timerWithPeriod7 (some 100) 3 (some 1)
        (some 2)).timer.bInit = true ∧
      (SetWaitableTimer false true timerWithPeriod7 (some 100) 3 (some 1)
        (some 2)).timer.timeout = ITimerspec.zero ∧
      (SetWaitableTimer false true timerWithPeriod7 (some 100) 3 (some 1)
        (some 2)).calls.filter isSettimeCall = [] :=
  setWaitableTimer_absolute_fails_after_mutation false timerWithPeriod7
    100 3 (some 1) (some 2) (by decide) (by decide)

/-- C7: an accepted negative due time `q` (a relative delay in
100-nanosecond units) programs an initial countdown of exactly
`|q| / 10^7` seconds and `(|q| mod 10^7) * 100` nanoseconds. -/
theorem setWaitableTimer_negative_due_conversion
    (g : Bool) (t : WinprTimer) (q p : Int) (pfn arg : Option Nat)
    (hq : q < 0) (hp : 0 ≤ p) :
    (SetWaitableTimer g true t (some q) p pfn arg).ret = true ∧
      (SetWaitableTimer g true t (some q) p pfn arg).timer.timeout.it_value_sec
        = ((q.natAbs / 10000000 : Nat) : Int) ∧
      (SetWaitableTimer g true t (some q) p pfn arg).timer.timeout.it_value_nsec
        = ((q.natAbs % 10000000 : Nat) : Int) * 100 := by
  have hp' : ¬ p < 0 := not_lt.mpr hp
  have hq' : ¬ 0 < q := by omega
  have hq0 : q ≠ 0 := by omega
  have hneg : -q = (q.natAbs : Int) := by omega
  have hd : -(q.tdiv 10000000) = |q| / 10000000 := by
    rw [← Int.neg_tdiv, hneg, Int.abs_eq_natAbs]; exact rfl
  have hm : (-q).tmod 10000000 = |q| % 10000000 := by
    rw [hneg, Int.abs_eq_natAbs]; exact rfl
  by_cases hb : t.bInit = true <;> by_cases ha : arg = none <;>
    by_cases hg : g = true <;> by_cases hpp : 0 < p <;>
    by_cases hpf : pfn = none <;>
    simp [SetWaitableTimer, InitializeWaitableTimer,
      InstallWaitableTimerSignalHandler, hp', hq, hq', hq0, hb, ha, hg,
      hpp, hpf, hd, hm]

/-- Witness for C7 at the claim's own concrete input: due time
-5,000,000 programs a countdown of 0 seconds and 500,000,000 nanoseconds,
i.e. exactly 500 ms. -/
theorem setWaitableTimer_negative_due_conversion_witness :
    ((-5000000 : Int) < 0) ∧
      ((SetWaitableTimer false true (CreateWaitableTimerA false)
          (some (-5000000)) 0 none none).ret = true ∧
        (SetWaitableTimer false true (CreateWaitableTimerA false)
          (some (-5000000)) 0 none none).timer.timeout.it_value_sec =
          (((-5000000 : Int).natAbs / 10000000 : Nat) : Int) ∧
        (SetWaitableTimer false true (CreateWaitableTimerA false)
          (some (-5000000)) 0 none none).timer.timeout.it_value_nsec =
          (((-5000000 : Int).natAbs % 10000000 : Nat) : Int) * 100) ∧
      (SetWaitableTimer false true (CreateWaitableTimerA false)
        (some (-5000000)) 0 none none).timer.timeout.it_value_nsec =
        500000000 :=
  ⟨by decide,
    setWaitableTimer_negative_due_conversion false (CreateWaitableTimerA false)
      (-5000000) 0 none none (by decide) (by decide),
    by decide⟩

/-- C8 counterexample: the claim says `timespec_add_ms ts ms` adds exactly
`ms * 10^6` nanoseconds for every 32-bit `ms`.  At `ms = 5000` the 32-bit
multiplication wraps: the result is 705,032,704 ns instead of 5 s. -/
theorem timespec_add_ms_overflow_counterexample :
    timespec_add_ms ⟨0, 0⟩ 5000 = ⟨0, 705032704⟩ ∧
      timespec_add_ms ⟨0, 0⟩ 5000 ≠ ⟨5, 0⟩ := by
  decide

/-- C8 (amended): for a normalized timestamp, `timespec_add_ms ts ms`
yields the normalized timestamp equal to `ts` plus
`(ms * 10^6) mod 2^32` nanoseconds — the millisecond-to-nanosecond
multiplication is performed in 32-bit arithmetic — with the carry into
seconds correct and the resulting nanoseconds again in `[0, 1e9)`. -/
theorem timespec_add_ms_adds_wrapped_milliseconds
    (ts : Timespec) (ms : Nat) (h0 : 0 ≤ ts.tv_nsec)
    (h1 : ts.tv_nsec < 1000000000) :
    (timespec_add_ms ts ms).tv_sec * 1000000000 +
        (timespec_add_ms ts ms).tv_nsec =
      ts.tv_sec * 1000000000 + ts.tv_nsec +
        (((ms * 1000000) % 4294967296 : Nat) : Int) ∧
      0 ≤ (timespec_add_ms ts ms).tv_nsec ∧
      (timespec_add_ms ts ms).tv_nsec < 1000000000 := by
  simp only [timespec_add_ms]
  refine ⟨?_, ?_, ?_⟩ <;> omega

/-- Witness for C8 (amended) at a concrete input with a nanosecond carry:
adding 1 ms to `(0 s, 999999999 ns)`. -/
theorem timespec_add_ms_adds_wrapped_milliseconds_witness :
    (timespec_add_ms ⟨0, 999999999⟩ 1).tv_sec * 1000000000 +
        (timespec_add_ms ⟨0, 999999999⟩ 1).tv_nsec =
      (⟨0, 999999999⟩ : Timespec).tv_sec * 1000000000 +
        (⟨0, 999999999⟩ : Timespec).tv_nsec +
        (((1 * 1000000) % 4294967296 : Nat) : Int) ∧
      0 ≤ (timespec_add_ms ⟨0, 999999999⟩ 1).tv_nsec ∧
      (timespec_add_ms ⟨0, 999999999⟩ 1).tv_nsec < 1000000000 :=
  timespec_add_ms_adds_wrapped_milliseconds ⟨0, 999999999⟩ 1 (by decide)
    (by decide)

/-- Helper: on a single-entry chain holding a periodic entry, the firing
loop invokes the callback once per elapsed period, each time advancing the
expiration with `timespec_add_ms` and re-inserting through
`InsertTimerQueueTimer`, until the entry's deadline moves past `now`. -/
theorem fireLoop_periodic_single (now : Timespec) :
    ∀ (k : Nat) (e : TQTimer) (fuel : Nat), e.Period ≠ 0 →
      (∀ j, j < k →
        0 ≤ timespec_compare now (advanceTimerIter e j).ExpirationTime) →
      timespec_compare now (advanceTimerIter e k).ExpirationTime < 0 →
      k < fuel →
      fireLoop fuel now [e] =
        some ([advanceTimerIter e k], List.replicate k (e.Parameter, true)) := by
  intro k
  induction k with
  | zero =>
    intro e fuel hp hdue hstop hfuel
    obtain ⟨n, rfl⟩ : ∃ n, fuel = n + 1 := ⟨fuel - 1, by omega⟩
    have hnd : ¬ 0 ≤ timespec_compare now e.ExpirationTime :=
      not_le.mpr hstop
    simp only [fireLoop, if_neg hnd]
    rfl
  | succ k ih =>
    intro e fuel hp hdue hstop hfuel
    obtain ⟨n, rfl⟩ : ∃ n, fuel = n + 1 := ⟨fuel - 1, by omega⟩
    have hd0 : 0 ≤ timespec_compare now e.ExpirationTime :=
      hdue 0 (Nat.succ_pos k)
    simp only [fireLoop, if_pos hd0, if_pos hp]
    have hrec := ih (advanceTimer e) n hp
      (fun j hj => hdue (j + 1) (by omega)) hstop (by omega)
    have hins : InsertTimerQueueTimer [] (advanceTimer e) [] =
        [advanceTimer e] := rfl
    rw [show ({ e with
          ExpirationTime := timespec_add_ms e.ExpirationTime e.Period,
          FireCount := e.FireCount + 1 } : TQTimer) = advanceTimer e from rfl,
      hins, hrec]
    rfl

/-- Helper: a due periodic head entry whose re-insert lands behind a
not-yet-due entry fires exactly once in the pass: the fire advances the
entry past the other entry in the chain (the insert appends after the
last node of a singleton remainder) and the loop then breaks at the
not-due new head. -/
theorem fireLoop_periodic_behind_later (now : Timespec) (e f : TQTimer)
    (fuel : Nat) (hp : e.Period ≠ 0)
    (hdue : 0 ≤ timespec_compare now e.ExpirationTime)
    (hf : timespec_compare now f.ExpirationTime < 0)
    (hfuel : 1 < fuel) :
    fireLoop fuel now [e, f] =
      some ([f, advanceTimer e], [(e.Parameter, true)]) := by
  obtain ⟨n, rfl⟩ : ∃ n, fuel = n + 1 + 1 := ⟨fuel - 2, by omega⟩
  have hnf : ¬ 0 ≤ timespec_compare now f.ExpirationTime := not_le.mpr hf
  simp only [fireLoop, if_pos hdue, if_pos hp]
  rw [show ({ e with
        ExpirationTime := timespec_add_ms e.ExpirationTime e.Period,
        FireCount := e.FireCount + 1 } : TQTimer) = advanceTimer e from rfl]
  rw [if_neg hnf]
  rfl

/-- C5 (amended): a due periodic head entry has its callback invoked, its
fire count incremented, its deadline advanced by its period via
`timespec_add_ms`, and is detached and re-inserted through
`InsertTimerQueueTimer`; the pass then continues with the resulting
chain, so there is no at-most-once-per-pass guarantee and the number of
fires depends on where the re-insert lands.  First conjunct: on a
single-entry chain the entry fires exactly once per elapsed period in the
same pass (catch-up firing) and the pass terminates with the entry
advanced past `now`.  Second conjunct: when the re-insert places the
entry behind a not-yet-due entry, it fires exactly once in that pass even
if multiple periods have elapsed. -/
theorem fireExpiredTimerQueueTimers_periodic_fires_while_due :
    (∀ (now : Timespec) (k : Nat) (e : TQTimer) (fuel : Nat),
        e.Period ≠ 0 →
        (∀ j, j < k →
          0 ≤ timespec_compare now (advanceTimerIter e j).ExpirationTime) →
        timespec_compare now (advanceTimerIter e k).ExpirationTime < 0 →
        k < fuel →
        FireExpiredTimerQueueTimers fuel now [e] =
          some ([advanceTimerIter e k],
            List.replicate k (e.Parameter, true))) ∧
      (∀ (now : Timespec) (e f : TQTimer) (fuel : Nat),
        e.Period ≠ 0 →
        0 ≤ timespec_compare now e.ExpirationTime →
        timespec_compare now f.ExpirationTime < 0 →
        1 < fuel →
        FireExpiredTimerQueueTimers fuel now [e, f] =
          some ([f, advanceTimer e], [(e.Parameter, true)])) := by
  constructor
  · intro now k e fuel hp hdue hstop hfuel
    show fireLoop fuel now [e] = _
    exact fireLoop_periodic_single now k e fuel hp hdue hstop hfuel
  · intro now e f fuel hp hdue hf hfuel
    show fireLoop fuel now [e, f] = _
    exact fireLoop_periodic_behind_later now e f fuel hp hdue hf hfuel

/-- Witness for C5 (amended) at concrete inputs.  Singleton chain: period
100 ms, due at 0, observed 250 ms later — the pass fires exactly three
times and leaves the entry advanced to 300 ms with fire count 3.  Chain
with a far-future second entry (due at 1000 s): the same periodic entry
fires exactly once in the pass and ends up behind the later entry. -/
theorem fireExpiredTimerQueueTimers_periodic_fires_while_due_witness :
    FireExpiredTimerQueueTimers 10 periodicNow [periodicEntry] =
        some ([advanceTimerIter periodicEntry 3],
          List.replicate 3 (periodicEntry.Parameter, true)) ∧
      FireExpiredTimerQueueTimers 10 periodicNow
          [periodicEntry, entryAt 1000 9 0] =
        some ([entryAt 1000 9 0, advanceTimer periodicEntry],
          [(periodicEntry.Parameter, true)]) :=
  ⟨fireExpiredTimerQueueTimers_periodic_fires_while_due.1 periodicNow 3
      periodicEntry 10 (by decide) (by decide) (by decide) (by decide),
    fireExpiredTimerQueueTimers_periodic_fires_while_due.2 periodicNow
      periodicEntry (entryAt 1000 9 0) 10 (by decide) (by decide)
      (by decide) (by decide)⟩

/-- C10: `ChangeTimerQueueTimer` with non-null handles returns TRUE and
changes nothing: the queue's chain and the entry pass through unchanged. -/
theorem changeTimerQueueTimer_returns_true_changes_nothing :
    ∀ (chain : List TQTimer) (t : TQTimer) (dueTime period : Nat),
      ChangeTimerQueueTimer (some chain) (some t) dueTime period =
        ⟨true, some chain, some t⟩ := by
  intro chain t dueTime period
  rfl
